import Mathlib

/-!
Shallow embedding of the access-control / dispatch core of `src/main.py`
(tinyLollms "LollMS Proxy Server").

The program is a FastAPI gateway: an admin authenticates with a JWT and
manages "application" records in a SQLite table `applications(key, name,
allowed_models)`; a chat endpoint looks up the caller's application record,
checks the requested model against the record's allow-list, and forwards the
message history to an external LollmsClient backend.

Modelling decisions:
* Process-global configuration (env-derived constants at `main.py` lines
  40-46) becomes an explicit `Config` value threaded into each function.
* The SQLite table becomes a `Store`: a flag for table existence plus a list
  of rows.  The `allowed_models` column is JSON text in SQLite; since
  `create_app`/`update_app` always write `json.dumps` of a list of strings
  and `get_app`/`list_apps` read it back with `json.loads`, the round-trip
  is the identity and the column is modelled directly as `List String`.
* Current UTC time and the uuid4 generator are nondeterministic inputs and
  become explicit parameters (`now : Int` in seconds, `gen : String`).
* The HS256 signature of a JWT is modelled by recording the signing secret
  in the token: verification against secret `s` succeeds exactly when the
  token was signed with `s`, which is the contract PyJWT provides.
* The external `LollmsClient(...).generate_from_messages(...)` call is a
  parameter `backend : Invocation → Except String String` (`.error` models a
  raised exception carrying its message text); the `Invocation` value records
  exactly the constructor arguments built at `main.py` lines 30-36.
* `raise HTTPException(status_code=..., detail=...)` becomes `Except ApiError`
  with one `ApiError` constructor per status code used.
-/

/-- Process-global configuration, read from environment variables at
`main.py` lines 40-46. -/
structure Config where
  adminUsername : String
  adminPassword : String
  jwtSecret : String
  openwebuiUrl : String
  openwebuiApiKey : String
deriving Repr, DecidableEq

/-- The default values hard-coded in `os.getenv(..., default)` at
`main.py` lines 40-46. -/
def defaultConfig : Config :=
  { adminUsername := "admin"
    adminPassword := "admin123"
    jwtSecret := "supersecretjwtkey"
    openwebuiUrl := "http://localhost:8000"
    openwebuiApiKey := "openwebui_key" }

/-- One row of the `applications` table created by `init_db`
(`main.py` lines 93-98): columns `key` (primary key), `name`,
`allowed_models` (JSON-encoded list of strings, here decoded). -/
structure Row where
  key : String
  name : String
  allowed_models : List String
deriving Repr, DecidableEq

/-- The SQLite database state: whether the `applications` table exists, and
its rows. -/
structure Store where
  tableExists : Bool
  rows : List Row
deriving Repr, DecidableEq

/-- Error taxonomy: one constructor per `HTTPException` status used by the
routes, carrying the `detail` string. -/
inductive ApiError where
  | notFound : String → ApiError    -- status 404
  | forbidden : String → ApiError   -- status 403
  | conflict : String → ApiError    -- status 400
  | backend : String → ApiError     -- status 502
  | auth : String → ApiError        -- status 401 (invalid/expired token) or 403 (bad login)
deriving Repr, DecidableEq

/-- Chat message, `class Message` at `main.py` lines 173-175. -/
structure Message where
  role : String
  content : String
deriving Repr, DecidableEq

/-- Body of `POST /api/chat`, `class ChatRequest` at `main.py` lines 178-181. -/
structure ChatRequest where
  app_key : String
  model : String
  messages : List Message
deriving Repr, DecidableEq

/-- Body of `POST /admin/add_app`, `class AddAppPayload` at
`main.py` lines 162-165.  `models` is a comma-separated string. -/
structure AddAppPayload where
  name : String
  key : Option String
  models : Option String
deriving Repr, DecidableEq

/-- Body of `PUT /admin/apps/...`, `class UpdateAppPayload` at
`main.py` lines 184-186. -/
structure UpdateAppPayload where
  name : Option String
  models : Option String
deriving Repr, DecidableEq

/-- `init_db` (`main.py` lines 89-100): `CREATE TABLE IF NOT EXISTS
applications (key TEXT PRIMARY KEY, name TEXT NOT NULL, allowed_models
TEXT)` — creates the empty three-column table when absent and does nothing
when the table already exists. -/
def init_db (s : Store) : Store :=
  if s.tableExists then s else { tableExists := true, rows := [] }

/-- `get_app` (`main.py` lines 103-111): `SELECT name, allowed_models FROM
applications WHERE key = ?`, returning `None` when no row matches. -/
def get_app (s : Store) (key : String) : Option Row :=
  s.rows.find? (fun r => r.key = key)

/-- `create_app` (`main.py` lines 114-120): `INSERT INTO applications (key,
name, allowed_models) VALUES (?, ?, ?)`. -/
def create_app (s : Store) (r : Row) : Store :=
  { s with rows := s.rows ++ [r] }

/-- `update_app` (`main.py` lines 123-129): `UPDATE applications SET name =
?, allowed_models = ? WHERE key = ?` — rewrites every row whose key matches
(at most one, by the primary-key constraint). -/
def update_app (s : Store) (key : String) (name : String)
    (allowed_models : List String) : Store :=
  { s with rows := s.rows.map (fun r =>
      if r.key = key then { r with name := name, allowed_models := allowed_models } else r) }

/-- `delete_app` (`main.py` lines 132-135): `DELETE FROM applications WHERE
key = ?`. -/
def delete_app (s : Store) (key : String) : Store :=
  { s with rows := s.rows.filter (fun r => ¬ (r.key = key)) }

/-- The comma-split-and-strip applied to a `models` payload field, as in
`[m.strip() for m in payload.models.split(",")] if payload.models else []`
(`main.py` lines 224 and 248).  In Python both `None` and `""` are falsy,
so both yield the empty list. -/
def parseModels (models : Option String) : List String :=
  match models with
  | none => []
  | some m => if m = "" then [] else (m.splitOn ",").map (fun x => x.trim)

/-- A decoded JWT as built by `create_jwt_token`; the `secret` field models
the HS256 signature (verification with secret `s` succeeds iff the token was
signed with `s`). -/
structure JwtToken where
  sub : String
  iat : Int
  exp : Int
  secret : String
deriving Repr, DecidableEq

/-- `create_jwt_token` (`main.py` lines 68-74): payload `sub = username`,
`iat = now`, `exp = now + 4 hours`, signed with `JWT_SECRET`. -/
def create_jwt_token (cfg : Config) (now : Int) (username : String) : JwtToken :=
  { sub := username, iat := now, exp := now + 4 * 3600, secret := cfg.jwtSecret }

/-- Outcome of `verify_jwt_token`: the subject on success, or the two
distinguishable 401 failures. -/
inductive AuthResult where
  | ok : String → AuthResult
  | expired : AuthResult    -- 401 "Token expired"  (jwt.ExpiredSignatureError)
  | invalid : AuthResult    -- 401 "Invalid token"  (jwt.InvalidTokenError)
deriving Repr, DecidableEq

/-- `verify_jwt_token` (`main.py` lines 77-85): `jwt.decode` fails with
`InvalidTokenError` on a bad signature and with `ExpiredSignatureError` when
the `exp` claim is before the current time; otherwise the subject claim is
returned. -/
def verify_jwt_token (cfg : Config) (now : Int) (t : JwtToken) : AuthResult :=
  if ¬ (t.secret = cfg.jwtSecret) then .invalid
  else if t.exp < now then .expired
  else .ok t.sub

/-- `admin_login` (`main.py` lines 201-209): reject unless both username and
password equal the configured admin identity, else issue a JWT. -/
def admin_login (cfg : Config) (now : Int) (username password : String) :
    Except ApiError JwtToken :=
  if ¬ (username = cfg.adminUsername) ∨ ¬ (password = cfg.adminPassword) then
    .error (.auth "Invalid credentials")
  else
    .ok (create_jwt_token cfg now username)

/-- `add_application` (`main.py` lines 212-227).  `gen` is the
`str(uuid.uuid4())` drawn for this call; Python's `payload.key or gen` uses
it when `key` is `None` or the empty string.  Returns the response row and
the resulting store (unchanged on error). -/
def add_application (s : Store) (gen : String) (p : AddAppPayload) :
    Except ApiError Row × Store :=
  let app_key := match p.key with
    | some k => if k = "" then gen else k
    | none => gen
  match get_app s app_key with
  | some _ => (.error (.conflict "Application key already exists"), s)
  | none =>
    let app_obj : Row := { key := app_key, name := p.name, allowed_models := parseModels p.models }
    (.ok app_obj, create_app s app_obj)

/-- `admin_update_app` (`main.py` lines 236-250): 404 when the key is
absent; otherwise overwrite `name` and/or `allowed_models` only when the
corresponding payload field is not `None`, then persist with `update_app`. -/
def admin_update_app (s : Store) (app_key : String) (p : UpdateAppPayload) :
    Except ApiError Row × Store :=
  match get_app s app_key with
  | none => (.error (.notFound "Application not found"), s)
  | some app =>
    let app := match p.name with
      | some n => { app with name := n }
      | none => app
    let app := match p.models with
      | some m => { app with allowed_models := parseModels (some m) }
      | none => app
    (.ok app, update_app s app_key app.name app.allowed_models)

/-- `admin_delete_app` (`main.py` lines 253-262): 404 when the key is
absent, otherwise remove the row. -/
def admin_delete_app (s : Store) (app_key : String) :
    Except ApiError String × Store :=
  match get_app s app_key with
  | none => (.error (.notFound "Application not found"), s)
  | some _ => (.ok app_key, delete_app s app_key)

/-- The constructor arguments of the `LollmsClient` call inside
`OpenWebUIClient.chat` (`main.py` lines 30-35): positional binding name plus
the `llm_binding_config` dict. -/
structure Invocation where
  binding : String
  host_address : String
  service_key : String
  model_name : String
  verify_ssl_certificate : Bool
  messages : List Message
deriving Repr, DecidableEq

/-- `class OpenWebUIClient` (`main.py` lines 21-36): constructed with
`base_url` and `api_key` at `main.py` line 286. -/
structure OpenWebUIClient where
  base_url : String
  api_key : String
deriving Repr, DecidableEq

/-- `OpenWebUIClient.chat` (`main.py` lines 29-36): builds
`LollmsClient("openwebui", llm_binding_config={host_address: OPENWEBUI_URL,
service_key: OPENWEBUI_API_KEY, model_name: model,
verify_ssl_certificate: False})` and calls `generate_from_messages`.  Note
it reads the process globals, not `self.base_url`/`self.api_key`. -/
def OpenWebUIClient.chat (_self : OpenWebUIClient) (cfg : Config)
    (model : String) (messages : List Message) : Invocation :=
  { binding := "openwebui"
    host_address := cfg.openwebuiUrl
    service_key := cfg.openwebuiApiKey
    model_name := model
    verify_ssl_certificate := false
    messages := messages }

/-- Outcome of `POST /api/chat`: the resulting store, the HTTP result (the
generated text on success), and the list of backend invocations made while
handling the request. -/
structure ChatOutcome where
  store : Store
  result : Except ApiError String
  invocations : List Invocation
deriving Repr

/-- `chat_endpoint` (`main.py` lines 275-292).  `backend` models
`LollmsClient.generate_from_messages`; `.error msg` is a raised exception
whose `str` is `msg`.  The model whitelist check mirrors
`if app_obj.get("allowed_models") and req.model not in
app_obj["allowed_models"]` — in Python an empty list is falsy, so a record
with an empty allow-list admits every model. -/
def chat_endpoint (cfg : Config) (backend : Invocation → Except String String)
    (s : Store) (req : ChatRequest) : ChatOutcome :=
  match get_app s req.app_key with
  | none => { store := s, result := .error (.notFound "Application not found"), invocations := [] }
  | some app_obj =>
    if ¬ (app_obj.allowed_models = []) ∧ ¬ (req.model ∈ app_obj.allowed_models) then
      { store := s
        result := .error (.forbidden "Model not allowed for this application")
        invocations := [] }
    else
      let client : OpenWebUIClient :=
        { base_url := cfg.openwebuiUrl, api_key := cfg.openwebuiApiKey }
      let inv := client.chat cfg req.model req.messages
      match backend inv with
      | .ok response => { store := s, result := .ok response, invocations := [inv] }
      | .error exc =>
        { store := s
          result := .error (.backend ("Error contacting OpenWebUI: " ++ exc))
          invocations := [inv] }

/-- Application record as the spec's section 3 describes it, used to compare
the spec's data model with the code's.  The source's `applications` table
and payload models carry only `key`, `name` and `allowed_models`; the other
attributes listed by the spec (binding identifier, host address, optional
credential, TLS verification flag, certificate path, active flag, welcome
message) have no counterpart anywhere in `main.py`. -/
structure SpecRecord where
  key : String
  name : String
  binding : String
  host : String
  service_key : Option String
  verify_ssl : Bool
  ssl_cert : Option String
  allowed_models : List String
  active : Bool
  welcome_message : Option String
deriving Repr, DecidableEq

/-- How a spec-level record lands in the code's store: the creation path
(`AddAppPayload` at `main.py` lines 162-165 and the `INSERT` at lines
116-119) accepts and persists only `key`, `name` and `allowed_models`; every
other spec attribute is dropped. -/
def rowOfSpecRecord (r : SpecRecord) : Row :=
  { key := r.key, name := r.name, allowed_models := r.allowed_models }

/-- A backend stub that always succeeds, for concrete evaluations. -/
def okBackend : Invocation → Except String String :=
  fun _ => .ok "mock-response"

/-- Concrete one-record store used to instantiate theorems. -/
def storeA : Store :=
  { tableExists := true
    rows := [{ key := "k", name := "Test", allowed_models := ["llama3", "mistral"] }] }

/-- A spec-level record that is deactivated (`active := false`) with an
empty allow-list, as the spec's deactivation scenario requires. -/
def inactiveRecord : SpecRecord :=
  { key := "k"
    name := "demo"
    binding := "lollms"
    host := "http://localhost:11434"
    service_key := none
    verify_ssl := true
    ssl_cert := none
    allowed_models := []
    active := false
    welcome_message := none }

/-- The spec's section 8 scenario record: name "Test", binding "ollama",
host "http://localhost:11434", models "llama3,mistral", active. -/
def scenarioRecord : SpecRecord :=
  { key := "Test-key"
    name := "Test"
    binding := "ollama"
    host := "http://localhost:11434"
    service_key := none
    verify_ssl := true
    ssl_cert := none
    allowed_models := ["llama3", "mistral"]
    active := true
    welcome_message := none }

/-- An old-schema store: the table exists and already holds one record. -/
def oldStore : Store :=
  { tableExists := true
    rows := [{ key := "old", name := "OldApp", allowed_models := ["llama3"] }] }

/-- The backend invocation built by `chat_endpoint` once the guard passes
(`main.py` lines 286-288): construct `OpenWebUIClient(base_url=OPENWEBUI_URL,
api_key=OPENWEBUI_API_KEY)` and call its `chat` method. -/
def dispatchInvocation (cfg : Config) (model : String) (messages : List Message) : Invocation :=
  OpenWebUIClient.chat
    { base_url := cfg.openwebuiUrl, api_key := cfg.openwebuiApiKey } cfg model messages

/-- A backend stub that always raises, for concrete evaluations. -/
def failBackend : Invocation → Except String String :=
  fun _ => .error "connection refused"

/-- Concrete two-record store: "k1" has an empty allow-list, "k2" allows
only "llama3". -/
def storeB : Store :=
  { tableExists := true
    rows := [{ key := "k1", name := "A", allowed_models := [] },
             { key := "k2", name := "B", allowed_models := ["llama3"] }] }

/-- C1: for every stored application record and requested model, the chat
dispatch model check allows the request (the backend is invoked) iff the
record's allow-list is empty or the requested model is an exact-match
member; when the list is non-empty and the model is not a member, dispatch
fails with the 403 ForbiddenError and the backend is never invoked. -/
theorem C1_model_check (cfg : Config) (backend : Invocation → Except String String)
    (s : Store) (req : ChatRequest) (app : Row)
    (h : get_app s req.app_key = some app) :
    ((chat_endpoint cfg backend s req).invocations ≠ [] ↔
      (app.allowed_models = [] ∨ req.model ∈ app.allowed_models)) ∧
    (¬ (app.allowed_models = []) → ¬ (req.model ∈ app.allowed_models) →
      (chat_endpoint cfg backend s req).result =
        .error (.forbidden "Model not allowed for this application") ∧
      (chat_endpoint cfg backend s req).invocations = []) := by
  unfold chat_endpoint
  rw [h]
  by_cases he : app.allowed_models = [] <;> by_cases hm : req.model ∈ app.allowed_models <;>
    simp [he, hm] <;> cases backend _ <;> simp

/-- Witness for C1 at the spec's scenario: model "gpt-4" is outside the
allow-list ["llama3", "mistral"], so dispatch is forbidden. -/
theorem C1_model_check_witness :
    (chat_endpoint defaultConfig okBackend storeA
        { app_key := "k", model := "gpt-4", messages := [] }).result =
      .error (.forbidden "Model not allowed for this application") := by
  have h := C1_model_check defaultConfig okBackend storeA
    { app_key := "k", model := "gpt-4", messages := [] }
    { key := "k", name := "Test", allowed_models := ["llama3", "mistral"] } (by decide)
  exact (h.2 (by decide) (by decide)).1

/-- C4: logging in with the configured admin identity succeeds and verifying
the issued token (before expiry) returns the original username; a token
whose age exceeds the 4-hour window fails with the distinguishable expired
variant; any other username/password pair fails with AuthError. -/
theorem C4_login_verify (cfg : Config) (now now' : Int) (u p : String) :
    (admin_login cfg now cfg.adminUsername cfg.adminPassword =
        .ok (create_jwt_token cfg now cfg.adminUsername) ∧
      (now' ≤ now + 4 * 3600 →
        verify_jwt_token cfg now' (create_jwt_token cfg now cfg.adminUsername) =
          .ok cfg.adminUsername)) ∧
    (now + 4 * 3600 < now' →
      verify_jwt_token cfg now' (create_jwt_token cfg now u) = .expired) ∧
    (¬ (u = cfg.adminUsername ∧ p = cfg.adminPassword) →
      admin_login cfg now u p = .error (.auth "Invalid credentials")) := by
  refine ⟨⟨?_, fun hle => ?_⟩, fun hgt => ?_, fun hne => ?_⟩
  · simp [admin_login]
  · simp [verify_jwt_token, create_jwt_token]
    omega
  · simp [verify_jwt_token, create_jwt_token]
    omega
  · unfold admin_login
    have : ¬ (u = cfg.adminUsername) ∨ ¬ (p = cfg.adminPassword) := by tauto
    simp [this]

/-- Witness for C4 with the default configuration: verify at age 100 s
returns "admin", verify at age 20000 s (past 14400 s) is expired, and the
pair ("x", "y") is rejected. -/
theorem C4_login_verify_witness :
    verify_jwt_token defaultConfig 100 (create_jwt_token defaultConfig 0 "admin") =
        .ok "admin" ∧
    verify_jwt_token defaultConfig 20000 (create_jwt_token defaultConfig 0 "admin") =
        .expired ∧
    admin_login defaultConfig 0 "x" "y" = .error (.auth "Invalid credentials") := by
  refine ⟨?_, ?_, ?_⟩
  · exact (C4_login_verify defaultConfig 0 100 "x" "y").1.2 (by decide)
  · exact (C4_login_verify defaultConfig 0 20000 "admin" "y").2.1 (by decide)
  · exact (C4_login_verify defaultConfig 0 20000 "x" "y").2.2 (by decide)

/-- Helper: once a stored record passes the model check, `chat_endpoint`
invokes the backend exactly once with the global-configuration descriptor
and translates its outcome, leaving the store untouched. -/
theorem chat_endpoint_pass (cfg : Config) (backend : Invocation → Except String String)
    (s : Store) (req : ChatRequest) (app : Row)
    (h : get_app s req.app_key = some app)
    (hallow : app.allowed_models = [] ∨ req.model ∈ app.allowed_models) :
    chat_endpoint cfg backend s req =
      { store := s
        result :=
          match backend (dispatchInvocation cfg req.model req.messages) with
          | .ok response => .ok response
          | .error exc => .error (.backend ("Error contacting OpenWebUI: " ++ exc))
        invocations := [dispatchInvocation cfg req.model req.messages] } := by
  unfold chat_endpoint dispatchInvocation
  rw [h]
  have hcond : ¬ (¬ (app.allowed_models = []) ∧ ¬ (req.model ∈ app.allowed_models)) := by
    tauto
  simp only [if_neg hcond]
  cases backend (OpenWebUIClient.chat
      { base_url := cfg.openwebuiUrl, api_key := cfg.openwebuiApiKey } cfg req.model req.messages) <;>
    rfl

/-- C2 counterexample: a record specified as deactivated (active flag false)
is stored by the code's creation path without any active column; chat
dispatch for its key then succeeds instead of failing with ForbiddenError. -/
theorem C2_inactive_counterexample :
    inactiveRecord.active = false ∧
    (chat_endpoint defaultConfig okBackend
        { tableExists := true, rows := [rowOfSpecRecord inactiveRecord] }
        { app_key := "k", model := "llama3", messages := [] }).result = .ok "mock-response" ∧
    ¬ ((chat_endpoint defaultConfig okBackend
        { tableExists := true, rows := [rowOfSpecRecord inactiveRecord] }
        { app_key := "k", model := "llama3", messages := [] }).result =
      .error (.forbidden "Model not allowed for this application")) := by
  refine ⟨rfl, rfl, ?_⟩
  have h : (chat_endpoint defaultConfig okBackend
      { tableExists := true, rows := [rowOfSpecRecord inactiveRecord] }
      { app_key := "k", model := "llama3", messages := [] }).result = .ok "mock-response" := rfl
  rw [h]
  exact fun hc => Except.noConfusion hc

/-- C2 (amended): the implementation stores no active flag — the creation
path persists only key, name and allowed_models — so the stored row, and
with it every chat dispatch outcome, is identical whether the record was
specified as active or deactivated; dispatch never fails for inactivity. -/
theorem C2_inactive_amended (cfg : Config) (backend : Invocation → Except String String)
    (tableE : Bool) (pre post : List Row) (r : SpecRecord) (b : Bool)
    (req : ChatRequest) :
    rowOfSpecRecord { r with active := b } = rowOfSpecRecord r ∧
    chat_endpoint cfg backend
        { tableExists := tableE, rows := pre ++ rowOfSpecRecord { r with active := b } :: post } req =
      chat_endpoint cfg backend
        { tableExists := tableE, rows := pre ++ rowOfSpecRecord r :: post } req := by
  exact ⟨rfl, rfl⟩

/-- C3 counterexample: the spec's scenario record carries host
"http://localhost:11434" and allows model "llama3", yet dispatch invokes the
backend with the process-global default host "http://localhost:8000" — the
record's host never reaches the connection descriptor. -/
theorem C3_host_counterexample :
    scenarioRecord.host = "http://localhost:11434" ∧
    (chat_endpoint defaultConfig okBackend
        { tableExists := true, rows := [rowOfSpecRecord scenarioRecord] }
        { app_key := "Test-key", model := "llama3", messages := [] }).invocations.map
          (fun i => i.host_address) = ["http://localhost:8000"] ∧
    ¬ ("http://localhost:8000" = "http://localhost:11434") := by
  refine ⟨rfl, by decide, by decide⟩

/-- C3 (amended): for every chat dispatch that passes the Access Guard, the
backend is invoked with a descriptor built solely from process-global
configuration — binding "openwebui", host OPENWEBUI_URL, credential
OPENWEBUI_API_KEY, TLS verification disabled — plus the requested model and
messages; no field of the authorizing record enters the descriptor. -/
theorem C3_descriptor_amended (cfg : Config) (backend : Invocation → Except String String)
    (s : Store) (req : ChatRequest) (app : Row)
    (h : get_app s req.app_key = some app)
    (hallow : app.allowed_models = [] ∨ req.model ∈ app.allowed_models) :
    (chat_endpoint cfg backend s req).invocations =
      [dispatchInvocation cfg req.model req.messages] ∧
    dispatchInvocation cfg req.model req.messages =
      { binding := "openwebui"
        host_address := cfg.openwebuiUrl
        service_key := cfg.openwebuiApiKey
        model_name := req.model
        verify_ssl_certificate := false
        messages := req.messages } := by
  refine ⟨?_, rfl⟩
  rw [chat_endpoint_pass cfg backend s req app h hallow]

/-- Witness for the amended C3: dispatching "llama3" under storeA invokes
the backend once with the global-configuration descriptor. -/
theorem C3_descriptor_amended_witness :
    (chat_endpoint defaultConfig okBackend storeA
        { app_key := "k", model := "llama3", messages := [] }).invocations =
      [{ binding := "openwebui"
         host_address := "http://localhost:8000"
         service_key := "openwebui_key"
         model_name := "llama3"
         verify_ssl_certificate := false
         messages := [] }] := by
  have h := C3_descriptor_amended defaultConfig okBackend storeA
    { app_key := "k", model := "llama3", messages := [] }
    { key := "k", name := "Test", allowed_models := ["llama3", "mistral"] }
    (by decide) (Or.inr (by decide))
  rw [h.1, h.2]
  rfl

/-- C9: whenever the external backend call raises, dispatch fails with a
BackendError whose detail carries the original exception message, the
backend was invoked exactly once (so at most once — no retry), and the store
is unchanged. -/
theorem C9_backend_error (cfg : Config) (backend : Invocation → Except String String)
    (s : Store) (req : ChatRequest) (app : Row) (msg : String)
    (h : get_app s req.app_key = some app)
    (hallow : app.allowed_models = [] ∨ req.model ∈ app.allowed_models)
    (hfail : backend (dispatchInvocation cfg req.model req.messages) = .error msg) :
    (chat_endpoint cfg backend s req).result =
      .error (.backend ("Error contacting OpenWebUI: " ++ msg)) ∧
    (chat_endpoint cfg backend s req).invocations.length = 1 ∧
    (chat_endpoint cfg backend s req).store = s := by
  rw [chat_endpoint_pass cfg backend s req app h hallow]
  rw [hfail]
  exact ⟨rfl, rfl, rfl⟩

/-- Witness for C9: with a backend that raises "connection refused",
dispatching "llama3" under storeA yields the 502 BackendError carrying that
message, one invocation, and the untouched store. -/
theorem C9_backend_error_witness :
    (chat_endpoint defaultConfig failBackend storeA
        { app_key := "k", model := "llama3", messages := [] }).result =
      .error (.backend "Error contacting OpenWebUI: connection refused") ∧
    (chat_endpoint defaultConfig failBackend storeA
        { app_key := "k", model := "llama3", messages := [] }).invocations.length = 1 ∧
    (chat_endpoint defaultConfig failBackend storeA
        { app_key := "k", model := "llama3", messages := [] }).store = storeA := by
  exact C9_backend_error defaultConfig failBackend storeA
    { app_key := "k", model := "llama3", messages := [] }
    { key := "k", name := "Test", allowed_models := ["llama3", "mistral"] }
    "connection refused" (by decide) (Or.inr (by decide)) rfl

/-- C10: any two records that both pass the Access Guard for the same model
yield identical backend invocations and identical dispatch results — the
descriptor depends only on the requested model, the messages and the
process-global configuration, not on the authorizing record. -/
theorem C10_record_independence (cfg : Config) (backend : Invocation → Except String String)
    (s : Store) (k1 k2 model : String) (msgs : List Message) (app1 app2 : Row)
    (h1 : get_app s k1 = some app1) (h2 : get_app s k2 = some app2)
    (ha1 : app1.allowed_models = [] ∨ model ∈ app1.allowed_models)
    (ha2 : app2.allowed_models = [] ∨ model ∈ app2.allowed_models) :
    (chat_endpoint cfg backend s { app_key := k1, model := model, messages := msgs }).invocations =
      (chat_endpoint cfg backend s { app_key := k2, model := model, messages := msgs }).invocations ∧
    (chat_endpoint cfg backend s { app_key := k1, model := model, messages := msgs }).result =
      (chat_endpoint cfg backend s { app_key := k2, model := model, messages := msgs }).result := by
  rw [chat_endpoint_pass cfg backend s { app_key := k1, model := model, messages := msgs } app1 h1 ha1]
  rw [chat_endpoint_pass cfg backend s { app_key := k2, model := model, messages := msgs } app2 h2 ha2]
  exact ⟨rfl, rfl⟩

/-- Witness for C10: under storeB, keys "k1" (empty allow-list) and "k2"
(allow-list containing "llama3") dispatch identically for model "llama3". -/
theorem C10_record_independence_witness :
    (chat_endpoint defaultConfig okBackend storeB
        { app_key := "k1", model := "llama3", messages := [] }).invocations =
      (chat_endpoint defaultConfig okBackend storeB
        { app_key := "k2", model := "llama3", messages := [] }).invocations ∧
    (chat_endpoint defaultConfig okBackend storeB
        { app_key := "k1", model := "llama3", messages := [] }).result =
      (chat_endpoint defaultConfig okBackend storeB
        { app_key := "k2", model := "llama3", messages := [] }).result := by
  exact C10_record_independence defaultConfig okBackend storeB "k1" "k2" "llama3" []
    { key := "k1", name := "A", allowed_models := [] }
    { key := "k2", name := "B", allowed_models := ["llama3"] }
    (by decide) (by decide) (Or.inl rfl) (Or.inr (by decide))

/-- Helper: a successful keyless create means the generated key was absent,
the response row carries that key, and the store gained exactly that row. -/
theorem add_application_ok (s : Store) (gen nm : String) (ms : Option String)
    (r : Row) (s' : Store)
    (h : add_application s gen { name := nm, key := none, models := ms } = (.ok r, s')) :
    get_app s gen = none ∧ r = { key := gen, name := nm, allowed_models := parseModels ms } ∧
      s' = create_app s r := by
  unfold add_application at h
  simp only [] at h
  cases hg : get_app s gen with
  | some a =>
    rw [hg] at h
    have := congrArg Prod.fst h
    exact absurd this (by simp)
  | none =>
    rw [hg] at h
    simp only [Prod.mk.injEq, Except.ok.injEq] at h
    exact ⟨rfl, h.1.symm, by rw [← h.2, h.1]⟩

/-- C5: creating with an explicit key that already exists fails with
ConflictError and leaves the store unchanged; a keyless create whose drawn
uuid is absent succeeds and assigns it; and any two successful keyless
creates in sequence assign distinct keys. -/
theorem C5_create_semantics (s : Store) (gen nm : String) (ms : Option String)
    (k : String) (r : Row) :
    (get_app s k = some r → ¬ (k = "") →
      add_application s gen { name := nm, key := some k, models := ms } =
        (.error (.conflict "Application key already exists"), s)) ∧
    (get_app s gen = none →
      add_application s gen { name := nm, key := none, models := ms } =
        (.ok { key := gen, name := nm, allowed_models := parseModels ms },
         create_app s { key := gen, name := nm, allowed_models := parseModels ms })) ∧
    (∀ (gen2 nm2 : String) (ms2 : Option String) (r1 r2 : Row) (s1 s2 : Store),
      add_application s gen { name := nm, key := none, models := ms } = (.ok r1, s1) →
      add_application s1 gen2 { name := nm2, key := none, models := ms2 } = (.ok r2, s2) →
      ¬ (r1.key = r2.key)) := by
  refine ⟨fun hr hk => ?_, fun hn => ?_, fun gen2 nm2 ms2 r1 r2 s1 s2 h1 h2 => ?_⟩
  · simp [add_application, hk, hr]
  · simp [add_application, hn]
  · obtain ⟨hg1, hr1, hs1⟩ := add_application_ok s gen nm ms r1 s1 h1
    obtain ⟨hg2, hr2, hs2⟩ := add_application_ok s1 gen2 nm2 ms2 r2 s2 h2
    intro hkey
    rw [hr1, hr2] at hkey
    simp only at hkey
    rw [hs1, hr1] at hg2
    rw [← hkey] at hg2
    unfold get_app create_app at hg2
    simp [List.find?_eq_none] at hg2

/-- Witness for C5: re-using key "k" on storeA conflicts and leaves the
store unchanged; a keyless create with fresh draw "gen-1" succeeds; two
successive keyless creates with draws "gen-1" and "gen-2" assign distinct
keys. -/
theorem C5_create_semantics_witness :
    add_application storeA "gen-1" { name := "Dup", key := some "k", models := none } =
      (.error (.conflict "Application key already exists"), storeA) ∧
    add_application storeA "gen-1" { name := "New", key := none, models := none } =
      (.ok { key := "gen-1", name := "New", allowed_models := [] },
       create_app storeA { key := "gen-1", name := "New", allowed_models := [] }) ∧
    ¬ (({ key := "gen-1", name := "New", allowed_models := [] } : Row).key =
       ({ key := "gen-2", name := "B", allowed_models := [] } : Row).key) := by
  refine ⟨?_, ?_, ?_⟩
  · exact (C5_create_semantics storeA "gen-1" "Dup" none "k"
      { key := "k", name := "Test", allowed_models := ["llama3", "mistral"] }).1
      (by decide) (by decide)
  · exact (C5_create_semantics storeA "gen-1" "New" none "k"
      { key := "k", name := "Test", allowed_models := ["llama3", "mistral"] }).2.1
      (by decide)
  · exact (C5_create_semantics storeA "gen-1" "New" none "k"
      { key := "k", name := "Test", allowed_models := ["llama3", "mistral"] }).2.2
      "gen-2" "B" none
      { key := "gen-1", name := "New", allowed_models := [] }
      { key := "gen-2", name := "B", allowed_models := [] }
      (create_app storeA { key := "gen-1", name := "New", allowed_models := [] })
      (create_app (create_app storeA { key := "gen-1", name := "New", allowed_models := [] })
        { key := "gen-2", name := "B", allowed_models := [] })
      rfl rfl

/-- Helper: updating name and allow-list of the rows keyed `k` commutes with
looking up `k` — the lookup returns the patched row. -/
theorem find?_update_same (l : List Row) (k n : String) (am : List String) :
    (l.map (fun r => if r.key = k then { r with name := n, allowed_models := am } else r)).find?
        (fun r => r.key = k) =
      (l.find? (fun r => r.key = k)).map
        (fun r => { r with name := n, allowed_models := am }) := by
  induction l with
  | nil => rfl
  | cons hd tl ih =>
    by_cases h : hd.key = k
    · simp [List.find?_cons, h]
    · simp [List.find?_cons, h, ih]

/-- Helper: updating the rows keyed `k` does not change lookups of any other
key. -/
theorem find?_update_other (l : List Row) (k k2 n : String) (am : List String)
    (hne : ¬ (k2 = k)) :
    (l.map (fun r => if r.key = k then { r with name := n, allowed_models := am } else r)).find?
        (fun r => r.key = k2) =
      l.find? (fun r => r.key = k2) := by
  induction l with
  | nil => rfl
  | cons hd tl ih =>
    by_cases h : hd.key = k
    · have h2 : ¬ (hd.key = k2) := fun hc => hne (hc.symm.trans h)
      have h3 : ¬ (k = k2) := fun hc => hne hc.symm
      simp [List.find?_cons, h, h2, h3, ih]
    · by_cases h2 : hd.key = k2
      · simp [List.find?_cons, h, h2, hne]
      · simp [List.find?_cons, h, h2, ih]

/-- C6: updating an absent key fails with NotFoundError and changes nothing;
updating an existing key patches only the supplied fields — an omitted name
or models field keeps its previous stored value, a supplied one takes the
new value — and leaves every other record untouched. -/
theorem C6_update_patch (s : Store) (k : String) (p : UpdateAppPayload) (app : Row) :
    (get_app s k = none →
      admin_update_app s k p = (.error (.notFound "Application not found"), s)) ∧
    (get_app s k = some app →
      (admin_update_app s k p).1 =
        .ok { key := k
              name := match p.name with | some n => n | none => app.name
              allowed_models := match p.models with
                | some m => parseModels (some m)
                | none => app.allowed_models } ∧
      get_app (admin_update_app s k p).2 k =
        some { key := k
               name := match p.name with | some n => n | none => app.name
               allowed_models := match p.models with
                 | some m => parseModels (some m)
                 | none => app.allowed_models } ∧
      (∀ k2, ¬ (k2 = k) → get_app (admin_update_app s k p).2 k2 = get_app s k2)) := by
  constructor
  · intro hn
    simp [admin_update_app, hn]
  · intro hs
    have hk : app.key = k := by
      have h2 := hs
      unfold get_app at h2
      have h3 := List.find?_some h2
      simpa using h3
    obtain ⟨ak, an, am⟩ := app
    simp only at hk
    subst hk
    have hs2 := hs
    unfold get_app at hs2
    rcases p with ⟨pn, pm⟩
    have main : ∀ (nv : String) (av : List String),
        get_app (update_app s ak nv av) ak = some { key := ak, name := nv, allowed_models := av } ∧
        (∀ k2, ¬ (k2 = ak) → get_app (update_app s ak nv av) k2 = get_app s k2) := by
      intro nv av
      constructor
      · unfold get_app update_app
        simp only []
        rw [find?_update_same, hs2]
        rfl
      · intro k2 hne
        unfold get_app update_app
        simp only []
        rw [find?_update_other _ _ _ _ _ hne]
    cases pn with
    | none =>
      cases pm with
      | none =>
        refine ⟨by simp [admin_update_app, hs], ?_, fun k2 hne => ?_⟩
        · unfold admin_update_app
          rw [hs]
          exact (main an am).1
        · unfold admin_update_app
          rw [hs]
          exact (main an am).2 k2 hne
      | some m =>
        refine ⟨by simp [admin_update_app, hs], ?_, fun k2 hne => ?_⟩
        · unfold admin_update_app
          rw [hs]
          exact (main an (parseModels (some m))).1
        · unfold admin_update_app
          rw [hs]
          exact (main an (parseModels (some m))).2 k2 hne
    | some n =>
      cases pm with
      | none =>
        refine ⟨by simp [admin_update_app, hs], ?_, fun k2 hne => ?_⟩
        · unfold admin_update_app
          rw [hs]
          exact (main n am).1
        · unfold admin_update_app
          rw [hs]
          exact (main n am).2 k2 hne
      | some m =>
        refine ⟨by simp [admin_update_app, hs], ?_, fun k2 hne => ?_⟩
        · unfold admin_update_app
          rw [hs]
          exact (main n (parseModels (some m))).1
        · unfold admin_update_app
          rw [hs]
          exact (main n (parseModels (some m))).2 k2 hne

/-- Witness for C6: patching only `name` on storeA's record "k" keeps the
stored allow-list and replaces the name; patching only `models` with the
empty string clears the allow-list and keeps the name; updating the absent
key "zz" is a NotFoundError leaving storeA intact. -/
theorem C6_update_patch_witness :
    get_app (admin_update_app storeA "k" { name := some "NewName", models := none }).2 "k" =
      some { key := "k", name := "NewName", allowed_models := ["llama3", "mistral"] } ∧
    get_app (admin_update_app storeA "k" { name := none, models := some "" }).2 "k" =
      some { key := "k", name := "Test", allowed_models := [] } ∧
    admin_update_app storeA "zz" { name := some "N", models := none } =
      (.error (.notFound "Application not found"), storeA) := by
  have ha := (C6_update_patch storeA "k" { name := some "NewName", models := none }
    { key := "k", name := "Test", allowed_models := ["llama3", "mistral"] }).2 (by decide)
  have hb := (C6_update_patch storeA "k" { name := none, models := some "" }
    { key := "k", name := "Test", allowed_models := ["llama3", "mistral"] }).2 (by decide)
  have h0 := (C6_update_patch storeA "zz" { name := some "N", models := none }
    { key := "k", name := "Test", allowed_models := ["llama3", "mistral"] }).1 (by decide)
  exact ⟨ha.2.1, hb.2.1, h0⟩

/-- C7: deleting an absent key fails with NotFoundError and changes nothing;
deleting an existing key removes the record, after which both lookup and
chat dispatch for that key fail with NotFoundError and the backend is never
invoked. -/
theorem C7_delete_gone (cfg : Config) (backend : Invocation → Except String String)
    (s : Store) (k model : String) (msgs : List Message) (app : Row) :
    (get_app s k = none →
      admin_delete_app s k = (.error (.notFound "Application not found"), s)) ∧
    (get_app s k = some app →
      admin_delete_app s k = (.ok k, delete_app s k) ∧
      get_app (delete_app s k) k = none ∧
      (chat_endpoint cfg backend (delete_app s k)
          { app_key := k, model := model, messages := msgs }).result =
        .error (.notFound "Application not found") ∧
      (chat_endpoint cfg backend (delete_app s k)
          { app_key := k, model := model, messages := msgs }).invocations = []) := by
  have hnone : get_app (delete_app s k) k = none := by
    unfold get_app delete_app
    simp only []
    rw [List.find?_eq_none]
    intro x hx
    have hmem := List.of_mem_filter hx
    simpa using hmem
  refine ⟨fun hn => ?_, fun hs => ?_⟩
  · simp [admin_delete_app, hn]
  · refine ⟨by simp [admin_delete_app, hs], hnone, ?_, ?_⟩
    · unfold chat_endpoint
      rw [show get_app (delete_app s k)
            ({ app_key := k, model := model, messages := msgs } : ChatRequest).app_key = none
          from hnone]
    · unfold chat_endpoint
      rw [show get_app (delete_app s k)
            ({ app_key := k, model := model, messages := msgs } : ChatRequest).app_key = none
          from hnone]

/-- Witness for C7: after deleting "k" from storeA, lookup returns nothing
and dispatching "llama3" under "k" is a 404 with no backend invocation. -/
theorem C7_delete_gone_witness :
    admin_delete_app storeA "k" = (.ok "k", delete_app storeA "k") ∧
    get_app (delete_app storeA "k") "k" = none ∧
    (chat_endpoint defaultConfig okBackend (delete_app storeA "k")
        { app_key := "k", model := "llama3", messages := [] }).result =
      .error (.notFound "Application not found") ∧
    (chat_endpoint defaultConfig okBackend (delete_app storeA "k")
        { app_key := "k", model := "llama3", messages := [] }).invocations = [] := by
  exact (C7_delete_gone defaultConfig okBackend storeA "k" "llama3" []
    { key := "k", name := "Test", allowed_models := ["llama3", "mistral"] }).2 (by decide)

/-- C8 counterexample: initialization inserts no seed record — on a fresh
store the table is created empty, and a store already holding data is left
completely unchanged, so no deactivated demo record exists afterwards. -/
theorem C8_seed_counterexample :
    init_db { tableExists := false, rows := [] } = { tableExists := true, rows := [] } ∧
    init_db oldStore = oldStore ∧
    oldStore.rows = [{ key := "old", name := "OldApp", allowed_models := ["llama3"] }] := by
  exact ⟨rfl, rfl, rfl⟩

/-- C8 (amended): opening the store runs only CREATE TABLE IF NOT EXISTS for
the three-column applications table — pre-existing rows survive unchanged
(no data loss), there are no active/verify_ssl/binding/welcome_message
columns to backfill, and no seed record is inserted. -/
theorem C8_init_only_creates_table (s : Store) :
    init_db s = { tableExists := true, rows := if s.tableExists then s.rows else [] } := by
  obtain ⟨t, rs⟩ := s
  cases t <;> rfl
